import Mathlib

/-!
Shallow embedding of the HaikuBox bird-detection analysis engine
(`src/analyzer.py`, class `BirdDataAnalyzer`): CSV row model, score and
local-date filtering, species/hour aggregation, top-N ranking, novelty
detection over a lookback window of sibling files, and UTC-to-local-day
reconciliation.  File contents are abstracted as already-parsed row lists;
Python `float` scores are modelled as exact decimals `num / 10 ^ exp`
compared by integer cross-multiplication.
-/

/-- One CSV detection row as produced by `csv.DictReader`: each field is
`some v` when the column is present in the file and `none` when absent. -/
structure Record where
  score : Option String
  species : Option String
  count : Option String
  localTime : Option String
  localDate : Option String
deriving DecidableEq

/-- An exact decimal number `num / 10 ^ exp`, the value of a parsed
`Score` string or of the configured threshold. -/
structure Dec where
  num : Int
  exp : Nat
deriving DecidableEq

def pow10 : Nat → Int
  | 0 => 1
  | n + 1 => 10 * pow10 n

/-- `a < b` on decimals, by integer cross-multiplication. -/
def decLtB (a b : Dec) : Bool :=
  decide (a.num * pow10 b.exp < b.num * pow10 a.exp)

/-- Constructor parameters of `BirdDataAnalyzer.__init__`. -/
structure Config where
  scoreThreshold : Dec
  topN : Nat
  excludeSpecies : List String
  lookbackDays : Nat
  includeTimeAnalysis : Bool
deriving DecidableEq

/-- The download directory: filename to the parsed rows of that CSV. -/
abbrev Fs := List (String × List Record)

def lookupFs : Fs → String → Option (List Record)
  | [], _ => none
  | (k, rs) :: t, n => if k = n then some rs else lookupFs t n

def fsExists (fs : Fs) (n : String) : Bool :=
  (lookupFs fs n).isSome

/-- `_read_csv`: a missing or unreadable file yields `[]`, never a crash. -/
def fsRead (fs : Fs) (n : String) : List Record :=
  (lookupFs fs n).getD []

def strEmpty : String := ""

def strUnknown : String := "Unknown"

/-- Split a character list on a separator, like Python `str.split(sep)`. -/
def splitOnChar (c : Char) : List Char → List (List Char)
  | [] => [[]]
  | x :: xs =>
    let rest := splitOnChar c xs
    if x = c then [] :: rest
    else
      match rest with
      | [] => [[x]]
      | h :: t => (x :: h) :: t

def digitVal (c : Char) : Nat := c.toNat - 48

def allDigits (l : List Char) : Bool := l.all (fun c => c.isDigit)

def digitsToNat (l : List Char) : Nat :=
  l.foldl (fun a c => a * 10 + digitVal c) 0

/-- Python `int(s)`: an optional sign followed by one or more digits;
`none` models a raised `ValueError`. -/
def pyIntChars : List Char → Option Int
  | '-' :: rest =>
    if rest ≠ [] ∧ allDigits rest then some (-(digitsToNat rest : Int)) else none
  | '+' :: rest =>
    if rest ≠ [] ∧ allDigits rest then some ((digitsToNat rest : Int)) else none
  | l =>
    if l ≠ [] ∧ allDigits l then some ((digitsToNat l : Int)) else none

/-- Unsigned part of Python `float(s)` on plain decimal literals. -/
def parseDecCore (l : List Char) : Option Dec :=
  match splitOnChar '.' l with
  | [ip] =>
    if ip ≠ [] ∧ allDigits ip then some ⟨(digitsToNat ip : Int), 0⟩ else none
  | [ip, fp] =>
    if (ip ≠ [] ∨ fp ≠ []) ∧ allDigits ip ∧ allDigits fp then
      some ⟨(digitsToNat ip : Int) * pow10 fp.length + (digitsToNat fp : Int), fp.length⟩
    else none
  | _ => none

/-- Python `float(s)` on plain decimal literals, with optional sign. -/
def parseDecChars : List Char → Option Dec
  | '-' :: rest => (parseDecCore rest).map (fun d => ⟨-d.num, d.exp⟩)
  | '+' :: rest => parseDecCore rest
  | l => parseDecCore l

/-- `float(detection.get('Score', 0))`: an absent field is the number 0;
a present field is parsed, `none` meaning the call raises. -/
def pyFloatField : Option String → Option Dec
  | none => some ⟨0, 0⟩
  | some s => parseDecChars s.data

/-- The row predicate of `_filter_by_score`: parseable score not below the
threshold, species not excluded; a row whose score raises is dropped. -/
def keepRecord (cfg : Config) (r : Record) : Bool :=
  match pyFloatField r.score with
  | none => false
  | some sc =>
    if decLtB sc cfg.scoreThreshold then false
    else !(cfg.excludeSpecies.contains (r.species.getD strEmpty))

/-- `_filter_by_score`: a pure, order-preserving filter. -/
def filterByScore (cfg : Config) (dets : List Record) : List Record :=
  dets.filter (keepRecord cfg)

/-- A calendar date, for filename arithmetic and formatting. -/
structure Date where
  year : Nat
  month : Nat
  day : Nat
deriving DecidableEq

def isLeap (y : Nat) : Bool :=
  (y % 4 = 0 && !(y % 100 = 0)) || y % 400 = 0

def daysInMonth (y m : Nat) : Nat :=
  if m = 2 then (if isLeap y then 29 else 28)
  else if m = 4 ∨ m = 6 ∨ m = 9 ∨ m = 11 then 30
  else 31

/-- `date + timedelta(days=1)`. -/
def nextDay (d : Date) : Date :=
  if d.day < daysInMonth d.year d.month then ⟨d.year, d.month, d.day + 1⟩
  else if d.month < 12 then ⟨d.year, d.month + 1, 1⟩
  else ⟨d.year + 1, 1, 1⟩

def prevDay (d : Date) : Date :=
  if 1 < d.day then ⟨d.year, d.month, d.day - 1⟩
  else if 1 < d.month then ⟨d.year, d.month - 1, daysInMonth d.year (d.month - 1)⟩
  else ⟨d.year - 1, 12, 31⟩

/-- `date - timedelta(days=n)`. -/
def subDays : Date → Nat → Date
  | d, 0 => d
  | d, n + 1 => subDays (prevDay d) n

def pad2 (n : Nat) : String :=
  if n < 10 then (r"0") ++ toString n else toString n

def pad4 (n : Nat) : String :=
  if n < 10 then (r"000") ++ toString n
  else if n < 100 then (r"00") ++ toString n
  else if n < 1000 then (r"0") ++ toString n
  else toString n

def monthAbbr : Nat → String
  | 1 => "Jan"
  | 2 => "Feb"
  | 3 => "Mar"
  | 4 => "Apr"
  | 5 => "May"
  | 6 => "Jun"
  | 7 => "Jul"
  | 8 => "Aug"
  | 9 => "Sep"
  | 10 => "Oct"
  | 11 => "Nov"
  | 12 => "Dec"
  | _ => ""

/-- `strftime('%Y-%m-%d')`. -/
def fmtYMD (d : Date) : String :=
  pad4 d.year ++ (r"-") ++ pad2 d.month ++ (r"-") ++ pad2 d.day

/-- `strftime('%d-%b-%Y')`, the format of the CSV `Local Date` field. -/
def fmtDMY (d : Date) : String :=
  pad2 d.day ++ (r"-") ++ monthAbbr d.month ++ (r"-") ++ pad4 d.year

/-- `_filter_by_local_date`: exact textual match of the `Local Date` field
against the target date formatted as `DD-Mon-YYYY`. -/
def filterByLocalDate (dets : List Record) (target : Date) : List Record :=
  dets.filter (fun rec => decide (rec.localDate.getD strEmpty = fmtDMY target))

/-- `int(detection.get('Count', 1))`: an absent field is the integer 1; a
present field is parsed, `Except.error ()` modelling a raised error. -/
def recordCountE (r : Record) : Except Unit Int :=
  match r.count with
  | none => Except.ok 1
  | some s =>
    match pyIntChars s.data with
    | some n => Except.ok n
    | none => Except.error ()

/-- `counts[key] += c` on a dict kept as an insertion-ordered list. -/
def addCount {α : Type} [DecidableEq α] : List (α × Int) → α → Int → List (α × Int)
  | [], k, c => [(k, c)]
  | (k0, v) :: rest, k, c =>
    if k0 = k then (k0, v + c) :: rest else (k0, v) :: addCount rest k c

/-- `_count_by_species`: first-encountered insertion order is kept; an
unparsable `Count` raises out of the whole aggregation. -/
def countBySpecies (dets : List Record) : Except Unit (List (String × Int)) :=
  dets.foldlM
    (fun m r =>
      match recordCountE r with
      | Except.error e => Except.error e
      | Except.ok c => Except.ok (addCount m (r.species.getD strUnknown) c)) []

/-- Hour extraction of `_count_by_hour`: `int(local_time.split(':')[0])`;
`none` when the field is missing, empty, or its hour part unparsable. -/
def hourOfRecord (r : Record) : Option Int :=
  let t := r.localTime.getD strEmpty
  if t = strEmpty then none
  else pyIntChars (t.data.takeWhile (fun c => !(c = ':')))

/-- `_count_by_hour`: rows whose time or count raises are skipped. -/
def countByHour (dets : List Record) : List (Int × Int) :=
  dets.foldl
    (fun hc r =>
      match hourOfRecord r with
      | none => hc
      | some h =>
        match recordCountE r with
        | Except.error _ => hc
        | Except.ok c => addCount hc h c) []

/-- Per-species time-range data of `_get_species_time_ranges`. -/
structure TimeRange where
  hours : List Int
  firstSeen : Int
  lastSeen : Int
  count : Int
deriving DecidableEq

/-- `set.add` on a set kept as a duplicate-free list. -/
def addHourSet (hs : List Int) (h : Int) : List Int :=
  if hs.contains h then hs else hs ++ [h]

def addTime : List (String × (List Int × Int)) → String → Int → Int → List (String × (List Int × Int))
  | [], sp, h, c => [(sp, ([h], c))]
  | (k, (hs, cnt)) :: rest, sp, h, c =>
    if k = sp then (k, (addHourSet hs h, cnt + c)) :: rest
    else (k, (hs, cnt)) :: addTime rest sp h c

/-- Stable insertion step: `x` goes before the first element it relates to. -/
def insertBy {α : Type} (le : α → α → Bool) (x : α) : List α → List α
  | [] => [x]
  | y :: ys => if le x y then x :: y :: ys else y :: insertBy le x ys

/-- Stable insertion sort, modelling Python's stable `sorted`. -/
def insSortBy {α : Type} (le : α → α → Bool) : List α → List α
  | [] => []
  | x :: xs => insertBy le x (insSortBy le xs)

def sortInts (l : List Int) : List Int :=
  insSortBy (fun a b => decide (a ≤ b)) l

/-- Lexicographic `≤` on character lists by code point, Python's string
order. -/
def listLeB : List Char → List Char → Bool
  | [], _ => true
  | _ :: _, [] => false
  | a :: as, b :: bs =>
    if a.toNat < b.toNat then true
    else if b.toNat < a.toNat then false
    else listLeB as bs

def strLeB (a b : String) : Bool := listLeB a.data b.data

/-- Python `sorted` on strings. -/
def sortStrings (l : List String) : List String :=
  insSortBy strLeB l

/-- `_get_species_time_ranges`: rows with species `"Unknown"` or a
missing/invalid time are skipped; hours are reported sorted. -/
def speciesTimeRangesOf (dets : List Record) : List (String × TimeRange) :=
  let st := dets.foldl
    (fun acc r =>
      let sp := r.species.getD strUnknown
      let t := r.localTime.getD strEmpty
      if t = strEmpty ∨ sp = strUnknown then acc
      else
        match pyIntChars (t.data.takeWhile (fun c => !(c = ':'))) with
        | none => acc
        | some h =>
          match recordCountE r with
          | Except.error _ => acc
          | Except.ok c => addTime acc sp h c) []
  st.filterMap
    (fun p =>
      if p.2.1.isEmpty then none
      else
        some (p.1,
          { hours := sortInts p.2.1,
            firstSeen := (sortInts p.2.1).headD 0,
            lastSeen := (sortInts p.2.1).getLastD 0,
            count := p.2.2 }))

/-- The derived activity summary of `_get_time_summary`. -/
structure TimeSummary where
  firstDetection : Int
  lastDetection : Int
  busiestHour : Int
  busiestHourCount : Int
  peakHours : List Int
  earlyBirds : List String
  nightOwls : List String
  mostActiveSpecies : Option String
  mostActiveSpan : Option Int
deriving DecidableEq

def minIntList : List Int → Int
  | [] => 0
  | h :: t => t.foldl min h

def maxIntList : List Int → Int
  | [] => 0
  | h :: t => t.foldl max h

/-- Python `max(items, key=value)`: first maximal item wins on ties. -/
def busiestOf : List (Int × Int) → (Int × Int)
  | [] => (0, 0)
  | h :: t => t.foldl (fun b x => if b.2 < x.2 then x else b) h

/-- `_get_time_summary`; `none` models the empty dictionary.  The
`count >= total/len(active)` float comparison is taken exactly, by
integer cross-multiplication. -/
def getTimeSummary (hc : List (Int × Int)) (ranges : List (String × TimeRange)) : Option TimeSummary :=
  if hc.isEmpty ∨ ranges.isEmpty then none
  else
    let total : Int := hc.foldl (fun a p => a + p.2) 0
    let active := (hc.filter (fun p => decide (0 < p.2))).map (fun p => p.1)
    if active.isEmpty then none
    else
      let widest := ranges.foldl
        (fun (acc : Option (String × Int)) p =>
          match acc with
          | none => some (p.1, p.2.lastSeen - p.2.firstSeen)
          | some (ws, wr) =>
            if wr < p.2.lastSeen - p.2.firstSeen then some (p.1, p.2.lastSeen - p.2.firstSeen)
            else some (ws, wr)) none
      some
        { firstDetection := minIntList active,
          lastDetection := maxIntList active,
          busiestHour := (busiestOf hc).1,
          busiestHourCount := (busiestOf hc).2,
          peakHours :=
            sortInts ((hc.filter (fun p => decide (total ≤ p.2 * (active.length : Int)))).map (fun p => p.1)),
          earlyBirds := (ranges.filter (fun p => p.2.hours.any (fun h => decide (h < 7)))).map (fun p => p.1),
          nightOwls := (ranges.filter (fun p => p.2.hours.any (fun h => decide (19 ≤ h)))).map (fun p => p.1),
          mostActiveSpecies := widest.map (fun p => p.1),
          mostActiveSpan := widest.map (fun p => p.2) }

def countGe (a b : String × Int) : Bool := decide (b.2 ≤ a.2)

/-- Python's stable `sorted(items, key=count, reverse=True)`. -/
def sortCountDesc (l : List (String × Int)) : List (String × Int) :=
  insSortBy countGe l

/-- `_get_top_species`: stable descending sort by count, then `[:top_n]`. -/
def getTopSpecies (cfg : Config) (counts : List (String × Int)) : List (String × Int) :=
  (sortCountDesc counts).take cfg.topN

/-- `Path.stem`: the filename without its last extension. -/
def stemChars (l : List Char) : List Char :=
  let rev := l.reverse
  let suff := rev.takeWhile (fun c => !(c = '.'))
  if suff.length = rev.length then l
  else
    let rest := rev.drop (suff.length + 1)
    if rest.isEmpty then l else rest.reverse

/-- `strptime(s, '%Y-%m-%d')`: 4-digit year, 1-2 digit month/day, and the
day must exist in that month; `none` models the raised `ValueError`. -/
def parseYMDChars (l : List Char) : Option Date :=
  match splitOnChar '-' l with
  | [ys, ms, ds] =>
    if ys.length = 4 ∧ allDigits ys ∧
       1 ≤ ms.length ∧ ms.length ≤ 2 ∧ allDigits ms ∧
       1 ≤ ds.length ∧ ds.length ≤ 2 ∧ allDigits ds then
      let y := digitsToNat ys
      let m := digitsToNat ms
      let d := digitsToNat ds
      if 1 ≤ m ∧ m ≤ 12 ∧ 1 ≤ d ∧ d ≤ daysInMonth y m then some ⟨y, m, d⟩ else none
    else none
  | _ => none

/-- `_extract_date_from_filename`: parse the part after the last `_` of
the stem as `YYYY-MM-DD`. -/
def extractDateFromFilename (path : String) : Option Date :=
  parseYMDChars ((splitOnChar '_' (stemChars path.data)).getLastD [])

def joinUnd : List (List Char) → List Char
  | [] => []
  | [x] => x
  | x :: xs => x ++ '_' :: joinUnd xs

/-- Box-name extraction of `_find_historical_files`: `stem.rsplit('_', 1)`
must give two parts; the box name is everything before the last `_`. -/
def boxNameOf (path : String) : Option String :=
  let parts := splitOnChar '_' (stemChars path.data)
  if 2 ≤ parts.length then some (String.mk (joinUnd parts.dropLast)) else none

/-- The daily CSV filename `<box>_<YYYY-MM-DD>.csv` for a UTC date. -/
def utcName (box : String) (d : Date) : String :=
  box ++ (r"_") ++ fmtYMD d ++ (r".csv")

/-- `_find_historical_files`: probe the lookback window for sibling files
that exist; date or box-name extraction failure yields `[]`. -/
def findHistoricalFiles (fs : Fs) (cfg : Config) (path : String) : List String :=
  match extractDateFromFilename path with
  | none => []
  | some d =>
    match boxNameOf path with
    | none => []
    | some box =>
      (List.range cfg.lookbackDays).filterMap
        (fun i =>
          if fsExists fs (utcName box (subDays d (i + 1))) then
            some (utcName box (subDays d (i + 1)))
          else none)

/-- `_get_historical_species`: union of non-empty species names over the
filtered rows of the given files. -/
def getHistoricalSpecies (fs : Fs) (cfg : Config) (names : List String) : List String :=
  names.foldl
    (fun acc nm =>
      (filterByScore cfg (fsRead fs nm)).foldl
        (fun acc2 r =>
          let s := r.species.getD strEmpty
          if s = strEmpty then acc2
          else if acc2.contains s then acc2 else acc2 ++ [s]) acc) []

/-- `_detect_new_birds`. -/
def detectNewBirds (fs : Fs) (cfg : Config) (path : String) (cur : List String) : List String :=
  if cur.isEmpty then []
  else
    if (findHistoricalFiles fs cfg path).isEmpty then sortStrings cur
    else
      sortStrings (cur.filter
        (fun s => !((getHistoricalSpecies fs cfg (findHistoricalFiles fs cfg path)).contains s)))

/-- The analysis-result dictionary; the three identity shapes share one
structure whose unused identity fields stay `none`. -/
structure AResult where
  file : Option String
  files : Option (List String)
  localDate : Option String
  boxName : Option String
  boxLocation : Option String
  utcFiles : Option (List String)
  totalDetections : Nat
  filteredDetections : Nat
  uniqueSpecies : Nat
  topSpecies : List (String × Int)
  scoreThreshold : Dec
  newBirds : List String
  hourCounts : Option (List (Int × Int))
  speciesTimeRanges : Option (List (String × TimeRange))
  timeSummary : Option TimeSummary
deriving DecidableEq

/-- The `include_time_analysis` block shared by `analyze_csv` and
`analyze_local_date`. -/
def timeFields (cfg : Config) (filtered : List Record) (base : AResult) : AResult :=
  if cfg.includeTimeAnalysis then
    { base with
      hourCounts := some (countByHour filtered),
      speciesTimeRanges := some (speciesTimeRangesOf filtered),
      timeSummary := getTimeSummary (countByHour filtered) (speciesTimeRangesOf filtered) }
  else base

/-- `analyze_csv`: `Except.ok none` is the missing-file `None` return;
`Except.error ()` models the uncaught `ValueError` of `_count_by_species`. -/
def analyzeCsv (fs : Fs) (cfg : Config) (path : String) : Except Unit (Option AResult) :=
  if fsExists fs path then
    match countBySpecies (filterByScore cfg (fsRead fs path)) with
    | Except.error e => Except.error e
    | Except.ok m =>
      Except.ok (some (timeFields cfg (filterByScore cfg (fsRead fs path))
        { file := some path, files := none, localDate := none, boxName := none,
          boxLocation := none, utcFiles := none,
          totalDetections := (fsRead fs path).length,
          filteredDetections := (filterByScore cfg (fsRead fs path)).length,
          uniqueSpecies := m.length,
          topSpecies := getTopSpecies cfg m,
          scoreThreshold := cfg.scoreThreshold,
          newBirds := detectNewBirds fs cfg path (m.map Prod.fst),
          hourCounts := none, speciesTimeRanges := none, timeSummary := none }))
  else Except.ok none

/-- Loop state of `analyze_multiple_csvs`. -/
structure CombineSt where
  counts : List (String × Int)
  newB : List String
  tot : Nat
  filt : Nat
deriving DecidableEq

def initSt : CombineSt := ⟨[], [], 0, 0⟩

/-- The accumulation loop of `analyze_multiple_csvs`: per-file analyses
are combined by re-summing only each file's top-N counts. -/
def combineAll (fs : Fs) (cfg : Config) : List String → CombineSt → Except Unit CombineSt
  | [], st => Except.ok st
  | p :: ps, st =>
    match analyzeCsv fs cfg p with
    | Except.error e => Except.error e
    | Except.ok none => combineAll fs cfg ps st
    | Except.ok (some a) =>
      combineAll fs cfg ps
        { counts := a.topSpecies.foldl (fun acc sc => addCount acc sc.1 sc.2) st.counts,
          newB := a.newBirds.foldl (fun ns b => if ns.contains b then ns else ns ++ [b]) st.newB,
          tot := st.tot + a.totalDetections,
          filt := st.filt + a.filteredDetections }

/-- `analyze_multiple_csvs`. -/
def analyzeMultipleCsvs (fs : Fs) (cfg : Config) (paths : List String) : Except Unit AResult :=
  match combineAll fs cfg paths initSt with
  | Except.error e => Except.error e
  | Except.ok st =>
    Except.ok
      { file := none, files := some paths, localDate := none, boxName := none,
        boxLocation := none, utcFiles := none,
        totalDetections := st.tot,
        filteredDetections := st.filt,
        uniqueSpecies := st.counts.length,
        topSpecies := getTopSpecies cfg st.counts,
        scoreThreshold := cfg.scoreThreshold,
        newBirds := sortStrings st.newB,
        hourCounts := none, speciesTimeRanges := none, timeSummary := none }

/-- The two-file merge of `analyze_local_date`: records of whichever of
the two UTC-dated files exist, first file first. -/
def mergedDetections (fs : Fs) (box : String) (d : Date) : List Record :=
  (if fsExists fs (utcName box d) then fsRead fs (utcName box d) else []) ++
  (if fsExists fs (utcName box (nextDay d)) then fsRead fs (utcName box (nextDay d)) else [])

/-- `analyze_local_date`: merge the target UTC file and the next day's,
filter to the target local date, then run the single-file stages; the
novelty detector is consulted only when the first UTC file exists. -/
def analyzeLocalDate (fs : Fs) (cfg : Config) (box : String) (d : Date) (loc : String) :
    Except Unit (Option AResult) :=
  if (mergedDetections fs box d).isEmpty then Except.ok none
  else if (filterByLocalDate (mergedDetections fs box d) d).isEmpty then Except.ok none
  else
    match countBySpecies (filterByScore cfg (filterByLocalDate (mergedDetections fs box d) d)) with
    | Except.error e => Except.error e
    | Except.ok m =>
      Except.ok (some (timeFields cfg (filterByScore cfg (filterByLocalDate (mergedDetections fs box d) d))
        { file := none, files := none,
          localDate := some (fmtYMD d), boxName := some box, boxLocation := some loc,
          utcFiles := some ((if fsExists fs (utcName box d) then [utcName box d] else []) ++
                            (if fsExists fs (utcName box (nextDay d)) then [utcName box (nextDay d)] else [])),
          totalDetections := (filterByLocalDate (mergedDetections fs box d) d).length,
          filteredDetections := (filterByScore cfg (filterByLocalDate (mergedDetections fs box d) d)).length,
          uniqueSpecies := m.length,
          topSpecies := getTopSpecies cfg m,
          scoreThreshold := cfg.scoreThreshold,
          newBirds :=
            if fsExists fs (utcName box d) then
              detectNewBirds fs cfg (utcName box d) (m.map Prod.fst)
            else [],
          hourCounts := none, speciesTimeRanges := none, timeSummary := none }))

/-- Projection used by concrete test theorems. -/
def resTotal : Except Unit (Option AResult) → Option Nat
  | Except.ok (some r) => some r.totalDetections
  | _ => none

def exceptDecEq {ε α : Type} [DecidableEq ε] [DecidableEq α] : DecidableEq (Except ε α) :=
  fun x y =>
    match x, y with
    | Except.ok a, Except.ok b =>
      if h : a = b then isTrue (by rw [h]) else isFalse (fun hc => by cases hc; exact h rfl)
    | Except.error a, Except.error b =>
      if h : a = b then isTrue (by rw [h]) else isFalse (fun hc => by cases hc; exact h rfl)
    | Except.ok _, Except.error _ => isFalse (fun hc => by cases hc)
    | Except.error _, Except.ok _ => isFalse (fun hc => by cases hc)

instance {ε α : Type} [DecidableEq ε] [DecidableEq α] : DecidableEq (Except ε α) := exceptDecEq

/-! ### Concrete fixtures used by the test theorems -/

/-- Default constructor parameters: threshold 0.5, top 10, no exclusions,
7-day lookback, no time analysis. -/
def cfgDefault : Config := ⟨⟨5, 1⟩, 10, [], 7, false⟩

def cfgTop1 : Config := ⟨⟨5, 1⟩, 1, [], 7, false⟩

def cfgTop2 : Config := ⟨⟨5, 1⟩, 2, [], 7, false⟩

/-- A row with score 0.9 and no `Count`/`Local Time` columns. -/
def mkRec (sp ld : String) : Record := ⟨some (r"0.9"), some sp, none, none, some ld⟩

def d0520 : Date := ⟨2026, 1, 20⟩

def ld20 : String := "20-Jan-2026"

def ld21 : String := "21-Jan-2026"

def rows1 : List Record :=
  [mkRec (r"A") ld20, mkRec (r"B") ld20, mkRec (r"C") ld20, mkRec (r"D") ld21, mkRec (r"E") ld21]

def rows2 : List Record :=
  [mkRec (r"F") ld20, mkRec (r"G") ld20, mkRec (r"H") ld20, mkRec (r"I") ld20]

/-- Two adjacent UTC day files of device `dev`. -/
def fs5 : Fs := [(utcName (r"dev") d0520, rows1), (utcName (r"dev") (nextDay d0520), rows2)]

def expected5 : List Record :=
  [mkRec (r"A") ld20, mkRec (r"B") ld20, mkRec (r"C") ld20,
   mkRec (r"F") ld20, mkRec (r"G") ld20, mkRec (r"H") ld20, mkRec (r"I") ld20]

/-- Only the first UTC file exists. -/
def fs6 : Fs := [((r"dev_2026-01-20.csv"), [mkRec (r"A") ld20])]

/-- Only the second UTC file exists, but it holds target-date rows. -/
def fs10 : Fs := [((r"dev_2026-01-21.csv"), [mkRec (r"A") ld20])]

def recA3 : Record := ⟨some (r"0.9"), some (r"A"), none, none, none⟩

def recB3 : Record := ⟨some (r"0.9"), some (r"B"), none, none, none⟩

/-- One file where species A has count 2 and species B count 1. -/
def fs3 : Fs := [((r"b_2026-01-20.csv"), [recA3, recA3, recB3])]

def fsW3 : Fs := [((r"w_2026-01-20.csv"), [recA3])]

/-- The single-file result over `fsW3` with the default parameters. -/
def resW3 : AResult :=
  ⟨some (r"w_2026-01-20.csv"), none, none, none, none, none, 1, 1, 1,
   [((r"A" : String), 1)], ⟨5, 1⟩, [(r"A" : String)], none, none, none⟩

/-- Species `"Unknown"` with a valid time. -/
def rUnk : Record := ⟨some (r"0.9"), some (r"Unknown"), none, some (r"06:30:00"), none⟩

/-- Present but unparsable `Count` column. -/
def recBadCount : Record := ⟨none, some (r"A"), some (r"x"), some (r"06:30:00"), none⟩

/-- Absent `Count` column. -/
def recMissCount : Record := ⟨none, some (r"A"), none, some (r"06:30:00"), none⟩

/-- Absent `Local Time` column. -/
def recNoTime : Record := ⟨some (r"0.9"), some (r"A"), none, none, none⟩

/-! ### Generic lemmas about the stable insertion sort -/

lemma insertBy_perm {α : Type} (le : α → α → Bool) (x : α) :
    ∀ l : List α, (insertBy le x l).Perm (x :: l)
  | [] => by simp [insertBy]
  | y :: ys => by
    unfold insertBy
    cases h : le x y with
    | true => simp
    | false =>
      simp only [Bool.false_eq_true, if_false]
      exact ((insertBy_perm le x ys).cons y).trans (List.Perm.swap x y ys)

lemma insSortBy_perm {α : Type} (le : α → α → Bool) :
    ∀ l : List α, (insSortBy le l).Perm l
  | [] => by simp [insSortBy]
  | x :: xs => by
    unfold insSortBy
    exact (insertBy_perm le x (insSortBy le xs)).trans ((insSortBy_perm le xs).cons x)

lemma mem_insertBy {α : Type} {le : α → α → Bool} {x a : α} {l : List α}
    (h : a ∈ insertBy le x l) : a = x ∨ a ∈ l := by
  have := (insertBy_perm le x l).mem_iff.mp h
  simpa using this

lemma insertBy_pairwise {α : Type} (le : α → α → Bool)
    (htot : ∀ a b, le a b = false → le b a = true)
    (htrans : ∀ a b c, le a b = true → le b c = true → le a c = true) (x : α) :
    ∀ l : List α, l.Pairwise (fun a b => le a b = true) →
      (insertBy le x l).Pairwise (fun a b => le a b = true)
  | [], _ => by simp [insertBy]
  | y :: ys, h => by
    rcases List.pairwise_cons.mp h with ⟨hy, hys⟩
    unfold insertBy
    cases hxy : le x y with
    | true =>
      simp only [if_true]
      refine List.pairwise_cons.mpr ⟨?_, h⟩
      intro z hz
      rcases List.mem_cons.mp hz with rfl | hz2
      · exact hxy
      · exact htrans x y z hxy (hy z hz2)
    | false =>
      simp only [Bool.false_eq_true, if_false]
      refine List.pairwise_cons.mpr ⟨?_, insertBy_pairwise le htot htrans x ys hys⟩
      intro z hz
      rcases mem_insertBy hz with hzx | hz2
      · rw [hzx]; exact htot x y hxy
      · exact hy z hz2

lemma insSortBy_pairwise {α : Type} (le : α → α → Bool)
    (htot : ∀ a b, le a b = false → le b a = true)
    (htrans : ∀ a b c, le a b = true → le b c = true → le a c = true) :
    ∀ l : List α, (insSortBy le l).Pairwise (fun a b => le a b = true)
  | [] => by simp [insSortBy]
  | x :: xs => by
    unfold insSortBy
    exact insertBy_pairwise le htot htrans x (insSortBy le xs)
      (insSortBy_pairwise le htot htrans xs)

lemma filter_insertBy {α : Type} (p : α → Bool) (le : α → α → Bool) (x : α)
    (hp : p x = true → ∀ y, le x y = false → p y = false) :
    ∀ l : List α,
      (insertBy le x l).filter p = if p x then x :: l.filter p else l.filter p
  | [] => by cases hx : p x <;> simp [insertBy, List.filter, hx]
  | y :: ys => by
    unfold insertBy
    cases hxy : le x y with
    | true =>
      cases hx : p x <;> simp [List.filter, hx]
    | false =>
      simp only [Bool.false_eq_true, if_false]
      have ih := filter_insertBy p le x hp ys
      cases hx : p x with
      | true =>
        have hpy : p y = false := hp hx y hxy
        simp [List.filter, hpy, ih, hx]
      | false =>
        cases hy : p y <;> simp [List.filter, hy, ih, hx]

lemma filter_insSortBy {α : Type} (p : α → Bool) (le : α → α → Bool)
    (hp : ∀ x, p x = true → ∀ y, le x y = false → p y = false) :
    ∀ l : List α, (insSortBy le l).filter p = l.filter p
  | [] => rfl
  | x :: xs => by
    unfold insSortBy
    rw [filter_insertBy p le x (hp x) (insSortBy le xs), filter_insSortBy p le hp xs]
    cases hx : p x <;> simp [List.filter, hx]

lemma listLeB_total : ∀ a b : List Char, listLeB a b = false → listLeB b a = true := by
  intro a
  induction a with
  | nil => intro b h; simp [listLeB] at h
  | cons x xs ih =>
    intro b h
    cases b with
    | nil => simp [listLeB]
    | cons y ys =>
      simp only [listLeB] at h ⊢
      by_cases h1 : x.toNat < y.toNat
      · simp [h1] at h
      · by_cases h2 : y.toNat < x.toNat
        · simp [h2]
        · simp only [h1, h2, if_false] at h ⊢
          exact ih ys h

lemma listLeB_trans : ∀ a b c : List Char,
    listLeB a b = true → listLeB b c = true → listLeB a c = true := by
  intro a
  induction a with
  | nil => intro b c h1 h2; simp [listLeB]
  | cons x xs ih =>
    intro b c h1 h2
    cases b with
    | nil => simp [listLeB] at h1
    | cons y ys =>
      cases c with
      | nil => simp [listLeB] at h2
      | cons z zs =>
        simp only [listLeB] at h1 h2 ⊢
        by_cases hxy : x.toNat < y.toNat
        · by_cases hyz : y.toNat < z.toNat
          · have hlt : x.toNat < z.toNat := Nat.lt_trans hxy hyz
            simp [hlt]
          · by_cases hzy : z.toNat < y.toNat
            · simp [hyz, hzy] at h2
            · have hlt : x.toNat < z.toNat := by omega
              simp [hlt]
        · by_cases hyx : y.toNat < x.toNat
          · simp [hxy, hyx] at h1
          · simp only [hxy, hyx, if_false] at h1
            by_cases hyz : y.toNat < z.toNat
            · have hlt : x.toNat < z.toNat := by omega
              simp [hlt]
            · by_cases hzy : z.toNat < y.toNat
              · simp [hyz, hzy] at h2
              · simp only [hyz, hzy, if_false] at h2
                have hxz : ¬ x.toNat < z.toNat := by omega
                have hzx : ¬ z.toNat < x.toNat := by omega
                simp only [hxz, hzx, if_false]
                exact ih ys zs h1 h2

lemma strLeB_total (a b : String) (h : strLeB a b = false) : strLeB b a = true :=
  listLeB_total a.data b.data h

lemma strLeB_trans (a b c : String) (h1 : strLeB a b = true) (h2 : strLeB b c = true) :
    strLeB a c = true :=
  listLeB_trans a.data b.data c.data h1 h2

lemma sortStrings_perm (l : List String) : (sortStrings l).Perm l :=
  insSortBy_perm _ l

lemma mem_sortStrings {a : String} {l : List String} (h : a ∈ sortStrings l) : a ∈ l :=
  (sortStrings_perm l).mem_iff.mp h

/-- The output of `sortStrings` is lexicographically nondecreasing. -/
lemma sortStrings_sorted (l : List String) :
    (sortStrings l).Pairwise (fun a b => strLeB a b = true) :=
  insSortBy_pairwise strLeB strLeB_total strLeB_trans l

/-! ### Lemmas about the novelty detector and the result builders -/

lemma detectNew_mem {fs : Fs} {cfg : Config} {path s : String} {cur : List String}
    (h : s ∈ detectNewBirds fs cfg path cur) : s ∈ cur := by
  unfold detectNewBirds at h
  cases hc : cur.isEmpty with
  | true => rw [hc] at h; simp at h
  | false =>
    rw [hc] at h
    simp only [Bool.false_eq_true, if_false] at h
    cases hh : (findHistoricalFiles fs cfg path).isEmpty with
    | true =>
      rw [hh] at h
      simp only [if_true] at h
      exact mem_sortStrings h
    | false =>
      rw [hh] at h
      simp only [Bool.false_eq_true, if_false] at h
      exact List.mem_of_mem_filter (mem_sortStrings h)

lemma timeFields_newBirds (cfg : Config) (f : List Record) (b : AResult) :
    (timeFields cfg f b).newBirds = b.newBirds := by
  unfold timeFields
  cases cfg.includeTimeAnalysis <;> simp

lemma timeFields_utcFiles (cfg : Config) (f : List Record) (b : AResult) :
    (timeFields cfg f b).utcFiles = b.utcFiles := by
  unfold timeFields
  cases cfg.includeTimeAnalysis <;> simp

lemma timeFields_totalDetections (cfg : Config) (f : List Record) (b : AResult) :
    (timeFields cfg f b).totalDetections = b.totalDetections := by
  unfold timeFields
  cases cfg.includeTimeAnalysis <;> simp

lemma timeFields_topSpecies (cfg : Config) (f : List Record) (b : AResult) :
    (timeFields cfg f b).topSpecies = b.topSpecies := by
  unfold timeFields
  cases cfg.includeTimeAnalysis <;> simp

/-! ### Claim theorems -/

/-- Claim C9: the score/exclusion filter stage is idempotent — applying
`_filter_by_score` to its own output with the same threshold and exclusion
set returns the identical sequence, for every record list and config. -/
theorem claim9_thm (cfg : Config) (dets : List Record) :
    filterByScore cfg (filterByScore cfg dets) = filterByScore cfg dets := by
  simp [filterByScore, List.filter_filter]

/-- Claim C5: local-day stitching — with `dev_2026-01-20.csv` holding 3
rows dated `20-Jan-2026` plus 2 dated `21-Jan-2026`, and
`dev_2026-01-21.csv` holding 4 rows dated `20-Jan-2026`, reconciling
local date 2026-01-20 keeps exactly the 7 textually matching rows and
reports `total_detections = 7`. -/
theorem claim5_thm :
    filterByLocalDate (mergedDetections fs5 (r"dev") d0520) d0520 = expected5 ∧
    resTotal (analyzeLocalDate fs5 cfgDefault (r"dev") d0520 (r"loc")) = some 7 := by
  decide

/-- Claim C7: novelty bootstrap — for a non-empty current species set and
zero historical files, `_detect_new_birds` returns exactly the current
species as a lexicographically sorted list (a permutation of the input,
nondecreasing in code-point order). -/
theorem claim7_thm (fs : Fs) (cfg : Config) (path : String) (cur : List String)
    (hne : cur ≠ []) (hh : findHistoricalFiles fs cfg path = []) :
    detectNewBirds fs cfg path cur = sortStrings cur ∧
    (sortStrings cur).Perm cur ∧
    (sortStrings cur).Pairwise (fun a b => strLeB a b = true) := by
  refine ⟨?_, sortStrings_perm cur, sortStrings_sorted cur⟩
  unfold detectNewBirds
  rw [hh]
  cases cur with
  | nil => exact absurd rfl hne
  | cons a t => simp

/-- Witness for C7 at a concrete input: species `{B, A}`, empty directory. -/
theorem claim7_witness :
    ([(r"B" : String), (r"A" : String)] ≠ ([] : List String)) ∧
    findHistoricalFiles [] cfgDefault (r"b_2026-01-20.csv") = [] ∧
    detectNewBirds [] cfgDefault (r"b_2026-01-20.csv") [(r"B" : String), (r"A" : String)] =
      sortStrings [(r"B" : String), (r"A" : String)] := by
  refine ⟨by decide, by decide, ?_⟩
  exact (claim7_thm [] cfgDefault (r"b_2026-01-20.csv") [(r"B"), (r"A")] (by decide) (by decide)).1

/-- Claim C2 counterexample: for the unparsable filename `nodate.csv` and
current species `{A}`, `_detect_new_birds` returns `["A"]`, not the empty
list the claim demands. -/
theorem claim2_counterexample :
    extractDateFromFilename (r"nodate.csv") = none ∧
    detectNewBirds [] cfgDefault (r"nodate.csv") [(r"A" : String)] = [(r"A" : String)] ∧
    [(r"A" : String)] ≠ ([] : List String) := by
  decide

/-- Claim C2 (amended): when device/date extraction from the filename
fails, `_detect_new_birds` does not consult any historical file and
returns the sorted current species list (so `[]` only for an empty
current set); it never crashes. -/
theorem claim2_thm (fs : Fs) (cfg : Config) (path : String) (cur : List String)
    (h : extractDateFromFilename path = none ∨ boxNameOf path = none) :
    detectNewBirds fs cfg path cur = sortStrings cur := by
  have hhist : findHistoricalFiles fs cfg path = [] := by
    unfold findHistoricalFiles
    rcases h with h | h
    · rw [h]
    · cases hext : extractDateFromFilename path with
      | none => rfl
      | some d => rw [h]
  unfold detectNewBirds
  rw [hhist]
  cases cur with
  | nil => simp [sortStrings, insSortBy]
  | cons a t => simp

/-- Witness for C2 at a concrete input. -/
theorem claim2_witness :
    (extractDateFromFilename (r"nodate.csv") = none ∨ boxNameOf (r"nodate.csv") = none) ∧
    detectNewBirds [] cfgDefault (r"nodate.csv") [(r"B" : String), (r"A" : String)] =
      sortStrings [(r"B" : String), (r"A" : String)] :=
  ⟨Or.inl (by decide),
   claim2_thm [] cfgDefault (r"nodate.csv") [(r"B"), (r"A")] (Or.inl (by decide))⟩

/-- Claim C1 counterexample: a record whose `Count` is present but not an
integer makes `_count_by_species` raise (it does not contribute 1), and
`_count_by_hour` skips it (contributing 0, not 1). -/
theorem claim1_counterexample :
    recBadCount.count = some (r"x") ∧
    pyIntChars (String.data (r"x")) = none ∧
    countBySpecies [recBadCount] = Except.error () ∧
    countByHour [recBadCount] = [] := by
  decide

/-- Claim C1 (amended): a record with a missing `Count` contributes
exactly 1 to both aggregations; a record with a present but unparsable
`Count` makes `_count_by_species` raise and is skipped (0 contribution)
by `_count_by_hour`. -/
theorem claim1_thm (rec : Record) :
    (rec.count = none →
      recordCountE rec = Except.ok 1 ∧
      countBySpecies [rec] = Except.ok [(rec.species.getD strUnknown, 1)] ∧
      ∀ h : Int, hourOfRecord rec = some h → countByHour [rec] = [(h, 1)]) ∧
    (∀ s : String, rec.count = some s → pyIntChars s.data = none →
      recordCountE rec = Except.error () ∧
      countBySpecies [rec] = Except.error () ∧
      countByHour [rec] = []) := by
  constructor
  · intro hc
    have hr : recordCountE rec = Except.ok 1 := by simp [recordCountE, hc]
    refine ⟨hr, ?_, ?_⟩
    · simp [countBySpecies, hr, addCount]
    · intro h hh
      simp [countByHour, hr, hh, addCount]
  · intro s hs hp
    have hr : recordCountE rec = Except.error () := by simp [recordCountE, hs, hp]
    refine ⟨hr, ?_, ?_⟩
    · simp [countBySpecies, hr]
    · cases hho : hourOfRecord rec <;> simp [countByHour, hr, hho]

/-- Witness for C1 on concrete rows: absent `Count` contributes 1;
unparsable `Count` raises in species aggregation and is skipped hourly. -/
theorem claim1_witness :
    (countBySpecies [recMissCount] = Except.ok [((r"A" : String), 1)] ∧
     countByHour [recMissCount] = [(6, 1)]) ∧
    (countBySpecies [recBadCount] = Except.error () ∧
     countByHour [recBadCount] = []) := by
  constructor
  · exact ⟨((claim1_thm recMissCount).1 rfl).2.1,
           ((claim1_thm recMissCount).1 rfl).2.2 6 (by decide)⟩
  · exact ⟨((claim1_thm recBadCount).2 _ rfl (by decide)).2.1,
           ((claim1_thm recBadCount).2 _ rfl (by decide)).2.2⟩

/-- Claim C4 counterexample: a filtered record with species `"Unknown"`
and a valid `Local Time` is counted by `_count_by_hour`, so it is not
excluded from all time-of-day outputs as claimed. -/
theorem claim4_counterexample :
    rUnk.species.getD strUnknown = strUnknown ∧
    countByHour [rUnk] = [(6, 1)] ∧
    speciesTimeRangesOf [rUnk] = [] := by
  decide

/-- Claim C4 (amended): a record with a missing or malformed `Local Time`
is excluded from both `hour_counts` and `species_time_ranges`; a record
with species `"Unknown"` is excluded only from `species_time_ranges` and
still counts in `hour_counts`. -/
theorem claim4_thm (rec : Record) :
    (hourOfRecord rec = none →
      countByHour [rec] = [] ∧ speciesTimeRangesOf [rec] = []) ∧
    (∀ (h c : Int), rec.species.getD strUnknown = strUnknown →
      hourOfRecord rec = some h → recordCountE rec = Except.ok c →
      countByHour [rec] = [(h, c)] ∧ speciesTimeRangesOf [rec] = []) := by
  constructor
  · intro hh
    constructor
    · simp [countByHour, hh]
    · by_cases ht : rec.localTime.getD strEmpty = strEmpty
      · simp [speciesTimeRangesOf, ht]
      · have hp : pyIntChars ((rec.localTime.getD strEmpty).data.takeWhile (fun c => !(c = ':'))) = none := by
          unfold hourOfRecord at hh
          simpa [ht] using hh
        simp [speciesTimeRangesOf, ht, hp]
  · intro h c hsp hh hc
    constructor
    · simp [countByHour, hh, hc, addCount]
    · simp [speciesTimeRangesOf, hsp]

/-- Witness for C4 on concrete rows: a row without `Local Time` is absent
from both outputs; an `"Unknown"` row with time `06:30:00` appears in
`hour_counts` but not in `species_time_ranges`. -/
theorem claim4_witness :
    (countByHour [recNoTime] = [] ∧ speciesTimeRangesOf [recNoTime] = []) ∧
    (countByHour [rUnk] = [(6, 1)] ∧ speciesTimeRangesOf [rUnk] = []) := by
  constructor
  · exact (claim4_thm recNoTime).1 (by decide)
  · exact (claim4_thm rUnk).2 6 1 (by decide) (by decide) (by decide)

/-- Claim C8: `_get_top_species` sorts by count descending with ties kept
in first-encountered insertion order (stability characterised by filter
preservation per count value), and on `{A:5, B:5, C:3}` with `top_n = 2`
it returns exactly `[(A,5), (B,5)]`. -/
theorem claim8_thm :
    (∀ (cfg : Config) (counts : List (String × Int)),
      List.Pairwise (fun a b : String × Int => b.2 ≤ a.2) (getTopSpecies cfg counts) ∧
      ∀ c : Int,
        (sortCountDesc counts).filter (fun z => decide (z.2 = c)) =
          counts.filter (fun z => decide (z.2 = c))) ∧
    getTopSpecies cfgTop2 [((r"A" : String), (5 : Int)), ((r"B" : String), 5), ((r"C" : String), 3)] =
      [((r"A" : String), (5 : Int)), ((r"B" : String), 5)] := by
  constructor
  · intro cfg counts
    constructor
    · have hp := insSortBy_pairwise countGe
        (fun a b hab => by
          simp only [countGe, decide_eq_false_iff_not] at hab
          simp only [countGe, decide_eq_true_eq]
          omega)
        (fun a b c hab hbc => by
          simp only [countGe, decide_eq_true_eq] at hab hbc ⊢
          omega) counts
      have hs := hp.sublist (List.take_sublist cfg.topN (insSortBy countGe counts))
      unfold getTopSpecies sortCountDesc
      exact hs.imp (fun hab => by simpa [countGe] using hab)
    · intro c
      unfold sortCountDesc
      apply filter_insSortBy
      intro x hx y hxy
      simp only [countGe, decide_eq_false_iff_not] at hxy
      simp only [decide_eq_true_eq] at hx
      simp only [decide_eq_false_iff_not]
      omega
  · decide

/-- Claim C3 counterexample: in the multi-file combine over one file with
`top_n = 1`, species B is reported in `new_birds` but is absent from the
combined species-count map (built from top-N lists only) and from the
species feeding `top_species`. -/
theorem claim3_counterexample :
    (analyzeMultipleCsvs fs3 cfgTop1 [(r"b_2026-01-20.csv")]).map
        (fun a => a.newBirds.contains (r"B")) = Except.ok true ∧
    (combineAll fs3 cfgTop1 [(r"b_2026-01-20.csv")] initSt).map
        (fun st => (st.counts.map Prod.fst).contains (r"B")) = Except.ok false ∧
    (analyzeMultipleCsvs fs3 cfgTop1 [(r"b_2026-01-20.csv")]).map
        (fun a => (a.topSpecies.map Prod.fst).contains (r"B")) = Except.ok false := by
  decide

/-- Claim C3 (amended): in the single-file and local-day paths every
species of `new_birds` is a key of that result's species-count map; the
multi-file combine does not satisfy this invariant. -/
theorem claim3_thm :
    (∀ (fs : Fs) (cfg : Config) (path : String) (res : AResult)
        (m : List (String × Int)) (s : String),
      analyzeCsv fs cfg path = Except.ok (some res) →
      countBySpecies (filterByScore cfg (fsRead fs path)) = Except.ok m →
      s ∈ res.newBirds → s ∈ m.map Prod.fst) ∧
    (∀ (fs : Fs) (cfg : Config) (box : String) (d : Date) (loc : String) (res : AResult)
        (m : List (String × Int)) (s : String),
      analyzeLocalDate fs cfg box d loc = Except.ok (some res) →
      countBySpecies (filterByScore cfg (filterByLocalDate (mergedDetections fs box d) d)) =
        Except.ok m →
      s ∈ res.newBirds → s ∈ m.map Prod.fst) := by
  constructor
  · intro fs cfg path res m s hr hm hs
    unfold analyzeCsv at hr
    cases hex : fsExists fs path with
    | false => rw [hex] at hr; simp at hr
    | true =>
      rw [hex, hm] at hr
      simp only [if_true] at hr
      have hres : timeFields cfg (filterByScore cfg (fsRead fs path))
          { file := some path, files := none, localDate := none, boxName := none,
            boxLocation := none, utcFiles := none,
            totalDetections := (fsRead fs path).length,
            filteredDetections := (filterByScore cfg (fsRead fs path)).length,
            uniqueSpecies := m.length,
            topSpecies := getTopSpecies cfg m,
            scoreThreshold := cfg.scoreThreshold,
            newBirds := detectNewBirds fs cfg path (m.map Prod.fst),
            hourCounts := none, speciesTimeRanges := none, timeSummary := none } = res := by
        simpa using hr
      rw [← hres, timeFields_newBirds] at hs
      exact detectNew_mem hs
  · intro fs cfg box d loc res m s hr hm hs
    unfold analyzeLocalDate at hr
    cases h1 : (mergedDetections fs box d).isEmpty with
    | true => rw [h1] at hr; simp at hr
    | false =>
      rw [h1] at hr
      cases h2 : (filterByLocalDate (mergedDetections fs box d) d).isEmpty with
      | true => rw [h2] at hr; simp at hr
      | false =>
        rw [h2, hm] at hr
        simp only [Bool.false_eq_true, if_false] at hr
        have hres : timeFields cfg
            (filterByScore cfg (filterByLocalDate (mergedDetections fs box d) d))
            { file := none, files := none,
              localDate := some (fmtYMD d), boxName := some box, boxLocation := some loc,
              utcFiles := some ((if fsExists fs (utcName box d) then [utcName box d] else []) ++
                                (if fsExists fs (utcName box (nextDay d)) then [utcName box (nextDay d)] else [])),
              totalDetections := (filterByLocalDate (mergedDetections fs box d) d).length,
              filteredDetections := (filterByScore cfg (filterByLocalDate (mergedDetections fs box d) d)).length,
              uniqueSpecies := m.length,
              topSpecies := getTopSpecies cfg m,
              scoreThreshold := cfg.scoreThreshold,
              newBirds :=
                if fsExists fs (utcName box d) then
                  detectNewBirds fs cfg (utcName box d) (m.map Prod.fst)
                else [],
              hourCounts := none, speciesTimeRanges := none, timeSummary := none } = res := by
          simpa using hr
        rw [← hres, timeFields_newBirds] at hs
        simp only at hs
        cases hfe : fsExists fs (utcName box d) with
        | false => rw [hfe] at hs; simp at hs
        | true =>
          rw [hfe] at hs
          simp only [if_true] at hs
          exact detectNew_mem hs

/-- Witness for C3 at a concrete single-file input: species A is both a
new bird and a key of the species-count map. -/
theorem claim3_witness :
    analyzeCsv fsW3 cfgDefault (r"w_2026-01-20.csv") = Except.ok (some resW3) ∧
    countBySpecies (filterByScore cfgDefault (fsRead fsW3 (r"w_2026-01-20.csv"))) =
      Except.ok [((r"A" : String), 1)] ∧
    (r"A" : String) ∈ resW3.newBirds ∧
    (r"A" : String) ∈ ([((r"A" : String), (1 : Int))].map Prod.fst) := by
  refine ⟨by decide, by decide, by decide, ?_⟩
  exact claim3_thm.1 fsW3 cfgDefault (r"w_2026-01-20.csv") resW3
    [((r"A"), 1)] (r"A") (by decide) (by decide) (by decide)

/-- Claim C6: when the first UTC file exists with rows matching the
target local date and the second is absent, `analyze_local_date` returns
a result built from the first file's matching rows whose `utc_files`
lists exactly the first file's name. -/
theorem claim6_thm (fs : Fs) (cfg : Config) (box loc : String) (d : Date)
    (m : List (String × Int))
    (h1 : fsExists fs (utcName box d) = true)
    (h2 : fsExists fs (utcName box (nextDay d)) = false)
    (h3 : filterByLocalDate (fsRead fs (utcName box d)) d ≠ [])
    (hm : countBySpecies (filterByScore cfg (filterByLocalDate (fsRead fs (utcName box d)) d)) =
      Except.ok m) :
    ∃ res : AResult,
      analyzeLocalDate fs cfg box d loc = Except.ok (some res) ∧
      res.utcFiles = some [utcName box d] ∧
      res.totalDetections = (filterByLocalDate (fsRead fs (utcName box d)) d).length ∧
      res.topSpecies = getTopSpecies cfg m := by
  have hmerge : mergedDetections fs box d = fsRead fs (utcName box d) := by
    simp [mergedDetections, h1, h2]
  have hlocne : (filterByLocalDate (fsRead fs (utcName box d)) d).isEmpty = false := by
    cases hq : filterByLocalDate (fsRead fs (utcName box d)) d with
    | nil => exact absurd hq h3
    | cons a t => rfl
  have hmne : (fsRead fs (utcName box d)).isEmpty = false := by
    cases hq : fsRead fs (utcName box d) with
    | nil =>
      exfalso
      apply h3
      simp [filterByLocalDate, hq]
    | cons a t => rfl
  unfold analyzeLocalDate
  rw [hmerge, hmne, hlocne, hm]
  refine ⟨_, rfl, ?_, ?_, ?_⟩
  · rw [timeFields_utcFiles]
    simp [h1, h2]
  · rw [timeFields_totalDetections]
  · rw [timeFields_topSpecies]

/-- Witness for C6 at a concrete input: only `dev_2026-01-20.csv` exists. -/
theorem claim6_witness :
    (fsExists fs6 (utcName (r"dev") d0520) = true ∧
     fsExists fs6 (utcName (r"dev") (nextDay d0520)) = false ∧
     filterByLocalDate (fsRead fs6 (utcName (r"dev") d0520)) d0520 ≠ []) ∧
    ∃ res : AResult,
      analyzeLocalDate fs6 cfgDefault (r"dev") d0520 (r"loc") = Except.ok (some res) ∧
      res.utcFiles = some [utcName (r"dev") d0520] ∧
      res.totalDetections = (filterByLocalDate (fsRead fs6 (utcName (r"dev") d0520)) d0520).length ∧
      res.topSpecies = getTopSpecies cfgDefault [((r"A" : String), 1)] := by
  refine ⟨⟨by decide, by decide, by decide⟩, ?_⟩
  exact claim6_thm fs6 cfgDefault (r"dev") (r"loc") d0520 [((r"A"), 1)]
    (by decide) (by decide) (by decide) (by decide)

/-- Claim C10: when the first UTC file is absent but the second supplies
rows matching the target local date, `analyze_local_date` still returns a
result, and its `new_birds` is always empty — the novelty detector is
never consulted. -/
theorem claim10_thm (fs : Fs) (cfg : Config) (box loc : String) (d : Date)
    (m : List (String × Int))
    (h1 : fsExists fs (utcName box d) = false)
    (h2 : fsExists fs (utcName box (nextDay d)) = true)
    (h3 : filterByLocalDate (fsRead fs (utcName box (nextDay d))) d ≠ [])
    (hm : countBySpecies (filterByScore cfg
      (filterByLocalDate (fsRead fs (utcName box (nextDay d))) d)) = Except.ok m) :
    ∃ res : AResult,
      analyzeLocalDate fs cfg box d loc = Except.ok (some res) ∧
      res.newBirds = [] := by
  have hmerge : mergedDetections fs box d = fsRead fs (utcName box (nextDay d)) := by
    simp [mergedDetections, h1, h2]
  have hlocne : (filterByLocalDate (fsRead fs (utcName box (nextDay d))) d).isEmpty = false := by
    cases hq : filterByLocalDate (fsRead fs (utcName box (nextDay d))) d with
    | nil => exact absurd hq h3
    | cons a t => rfl
  have hmne : (fsRead fs (utcName box (nextDay d))).isEmpty = false := by
    cases hq : fsRead fs (utcName box (nextDay d)) with
    | nil =>
      exfalso
      apply h3
      simp [filterByLocalDate, hq]
    | cons a t => rfl
  unfold analyzeLocalDate
  rw [hmerge, hmne, hlocne, hm]
  refine ⟨_, rfl, ?_⟩
  rw [timeFields_newBirds]
  simp [h1]

/-- Witness for C10 at a concrete input: only `dev_2026-01-21.csv`
exists, holding a row dated `20-Jan-2026`. -/
theorem claim10_witness :
    (fsExists fs10 (utcName (r"dev") d0520) = false ∧
     fsExists fs10 (utcName (r"dev") (nextDay d0520)) = true ∧
     filterByLocalDate (fsRead fs10 (utcName (r"dev") (nextDay d0520))) d0520 ≠ []) ∧
    ∃ res : AResult,
      analyzeLocalDate fs10 cfgDefault (r"dev") d0520 (r"loc") = Except.ok (some res) ∧
      res.newBirds = [] := by
  refine ⟨⟨by decide, by decide, by decide⟩, ?_⟩
  exact claim10_thm fs10 cfgDefault (r"dev") (r"loc") d0520 [((r"A"), 1)]
    (by decide) (by decide) (by decide) (by decide)
